import Mathlib

/-!
Verification of the spaCy transformer-pipeline demo notebook
(`src/src/transformer_example.ipynb`).

The notebook loads an external pre-trained pipeline, runs it once on a fixed
Japanese sentence, and then iterates over the resulting document's tokens and
entity spans, printing their fields and requesting two visual renderings.

We embed the notebook as a small trace-producing program over a `Doc` value:
each code cell after the pipeline invocation is a `Cell`, interpreted by
`execCell` over a `DemoState` carrying the document and the output trace of
`Event`s (printed lines, render requests, pipeline invocations).  The
external annotation capability is a parameter `nlp : String → Except String Doc`
(spaCy raises on failure, e.g. a missing model; the demo installs no handler).
The concrete document produced by the recorded run is transcribed from the
notebook's own output cells as `doc` below.
-/

/-- A token of the annotated document, with the read-only fields the notebook
displays (spaCy `Token` attributes).  Field names follow the spaCy API used in
the notebook: `token.text`, `token.lemma_`, `token.pos_`, `token.tag_`,
`token.dep_`, `token.morph` (printed form), `token.shape_`, `token.is_alpha`,
`token.is_stop`, `token.ent_iob_`, `token.ent_type_`. -/
structure Token where
  text : String
  lemma_ : String
  pos_ : String
  tag_ : String
  dep_ : String
  morph : String
  shape_ : String
  is_alpha : Bool
  is_stop : Bool
  ent_iob_ : String
  ent_type_ : String
deriving DecidableEq, Repr

/-- An entity span of the document, with the read-only fields the notebook
displays (spaCy `Span` attributes `ent.text`, `ent.start_char`, `ent.end_char`,
`ent.label_`). -/
structure Span where
  text : String
  start_char : Nat
  end_char : Nat
  label_ : String
deriving DecidableEq, Repr

/-- The annotated document: the original text, the ordered finite token
sequence (iterating `doc` in the notebook yields the tokens), and the finite
entity-span sequence (`doc.ents`). -/
structure Doc where
  text : String
  tokens : List Token
  ents : List Span
deriving DecidableEq, Repr

/-- One observable effect of the demo: invoking the external annotation
capability on an input string, printing one line, or requesting a visual
rendering of a document in a given style ("dep" or "ent"; the constant
`options` dict passed to `displacy.render` carries no document data and is
not modelled). -/
inductive Event where
  | invoke (input : String)
  | print (line : String)
  | render (style : String) (d : Doc)
deriving DecidableEq, Repr

/-- Python `print(a, b, c, ...)` joins its arguments with single spaces. -/
def pyPrint (parts : List String) : String :=
  String.intercalate " " parts

/-- Python `repr`/`str` of a `bool`, as `print` shows it. -/
def pyBool (b : Bool) : String :=
  if b then "True" else "False"

/-- Line printed by the token-annotation loop:
`print(token.text, f"{token.ent_iob_}-{token.ent_type_}", token.tag_, token.pos_, token.dep_, token.morph)`. -/
def tokenAnnotationLine (t : Token) : String :=
  pyPrint [t.text, t.ent_iob_ ++ "-" ++ t.ent_type_, t.tag_, t.pos_, t.dep_, t.morph]

/-- Line printed by the tokenization loop: `print(token.text)`. -/
def tokenTextLine (t : Token) : String :=
  t.text

/-- Header printed before the part-of-speech table
(`print("TEXT\tLEMMA\tPOS\tTAG\tDEP\tSHAPE\tALPHA\tSTOP")`). -/
def posHeaderLine : String :=
  "TEXT\tLEMMA\tPOS\tTAG\tDEP\tSHAPE\tALPHA\tSTOP"

/-- Line printed by the part-of-speech table loop:
`print(token.text, token.lemma_, token.pos_, token.tag_, token.dep_, token.shape_, token.is_alpha, token.is_stop)`. -/
def posTableLine (t : Token) : String :=
  pyPrint [t.text, t.lemma_, t.pos_, t.tag_, t.dep_, t.shape_, pyBool t.is_alpha, pyBool t.is_stop]

/-- Line printed by the entity-display loop:
`print(ent.text, ent.start_char, ent.end_char, ent.label_)`. -/
def entLine (e : Span) : String :=
  pyPrint [e.text, toString e.start_char, toString e.end_char, e.label_]

/-- Line printed by the per-token entity-tag loop:
`print(token.text, f"{token.ent_iob_}-{token.ent_type_}")`. -/
def tokenIobLine (t : Token) : String :=
  pyPrint [t.text, t.ent_iob_ ++ "-" ++ t.ent_type_]

/-- The code cells of the notebook that follow the pipeline invocation, in
notebook order. -/
inductive Cell where
  | tokenAnnotationLoop
  | tokenTextLoop
  | posTable
  | renderDep
  | entsLoop
  | tokenIobLoop
  | renderEnt
deriving DecidableEq, Repr

/-- The state threaded through the demo: the document bound to the Python
variable `doc`, and the trace of effects emitted so far. -/
structure DemoState where
  doc : Doc
  output : List Event
deriving DecidableEq, Repr

/-- Operational interpreter of a `for x in xs: print(f(x))` loop: a single
pass over the sequence, appending one printed line per element to the trace. -/
def execPrintLoop {α : Type} (f : α → String) : List α → DemoState → DemoState
  | [], s => s
  | x :: xs, s => execPrintLoop f xs ⟨s.doc, s.output ++ [Event.print (f x)]⟩

/-- Interpreter of one notebook cell over the demo state. -/
def execCell (c : Cell) (s : DemoState) : DemoState :=
  match c with
  | Cell.tokenAnnotationLoop => execPrintLoop tokenAnnotationLine s.doc.tokens s
  | Cell.tokenTextLoop => execPrintLoop tokenTextLine s.doc.tokens s
  | Cell.posTable =>
      execPrintLoop posTableLine s.doc.tokens ⟨s.doc, s.output ++ [Event.print posHeaderLine]⟩
  | Cell.renderDep => ⟨s.doc, s.output ++ [Event.render "dep" s.doc]⟩
  | Cell.entsLoop => execPrintLoop entLine s.doc.ents s
  | Cell.tokenIobLoop => execPrintLoop tokenIobLine s.doc.tokens s
  | Cell.renderEnt => ⟨s.doc, s.output ++ [Event.render "ent" s.doc]⟩

/-- Sequential execution of a list of cells. -/
def execCells (cs : List Cell) (s : DemoState) : DemoState :=
  match cs with
  | [] => s
  | c :: cs => execCells cs (execCell c s)

/-- The notebook's cells after the invocation cell, in order: token-annotation
loop, tokenization loop, POS table, dependency rendering, entity-span loop,
per-token entity-tag loop, entity rendering. -/
def demoCells : List Cell :=
  [Cell.tokenAnnotationLoop, Cell.tokenTextLoop, Cell.posTable, Cell.renderDep,
   Cell.entsLoop, Cell.tokenIobLoop, Cell.renderEnt]

/-- The whole demo: invoke the external annotation capability `nlp` once on
the input string (`doc = nlp(sentence)`), then run the display cells on the
returned document.  If the capability fails, no handler exists: the error
propagates and nothing further runs.  Returns the effect trace and the
run's outcome. -/
def demoRun (nlp : String → Except String Doc) (sentence : String) :
    List Event × Except String Unit :=
  match nlp sentence with
  | Except.error e => ([Event.invoke sentence], Except.error e)
  | Except.ok d =>
      ((execCells demoCells ⟨d, [Event.invoke sentence]⟩).output, Except.ok ())

/-- Declarative description of the events the display cells emit for a
document `d`, cell by cell. -/
def cellEvents (c : Cell) (d : Doc) : List Event :=
  match c with
  | Cell.tokenAnnotationLoop => d.tokens.map (fun t => Event.print (tokenAnnotationLine t))
  | Cell.tokenTextLoop => d.tokens.map (fun t => Event.print (tokenTextLine t))
  | Cell.posTable => Event.print posHeaderLine :: d.tokens.map (fun t => Event.print (posTableLine t))
  | Cell.renderDep => [Event.render "dep" d]
  | Cell.entsLoop => d.ents.map (fun e => Event.print (entLine e))
  | Cell.tokenIobLoop => d.tokens.map (fun t => Event.print (tokenIobLine t))
  | Cell.renderEnt => [Event.render "ent" d]

/-- Declarative description of the full display trace for a document. -/
def demoBodyEvents (d : Doc) : List Event :=
  cellEvents Cell.tokenAnnotationLoop d ++ cellEvents Cell.tokenTextLoop d ++
  cellEvents Cell.posTable d ++ cellEvents Cell.renderDep d ++
  cellEvents Cell.entsLoop d ++ cellEvents Cell.tokenIobLoop d ++
  cellEvents Cell.renderEnt d

/-- Recogniser for invocation events. -/
def Event.isInvoke : Event → Bool
  | Event.invoke _ => true
  | Event.print _ => false
  | Event.render _ _ => false

/-- Number of invocations of the external annotation capability in a trace. -/
def countInvokes (evs : List Event) : Nat :=
  (evs.filter Event.isInvoke).length

/-- The rendering requests of a trace, each with its style and the document
it was requested on. -/
def renderRequests (evs : List Event) : List (String × Doc) :=
  evs.filterMap (fun ev => match ev with
    | Event.render st d => some (st, d)
    | _ => none)

theorem execPrintLoop_eq {α : Type} (f : α → String) (xs : List α) (s : DemoState) :
    execPrintLoop f xs s = ⟨s.doc, s.output ++ xs.map (fun x => Event.print (f x))⟩ := by
  induction xs generalizing s with
  | nil => simp [execPrintLoop]
  | cons x xs ih => simp [execPrintLoop, ih]

theorem execCell_eq (c : Cell) (s : DemoState) :
    execCell c s = ⟨s.doc, s.output ++ cellEvents c s.doc⟩ := by
  cases c <;> simp [execCell, cellEvents, execPrintLoop_eq]

theorem execCells_demo_eq (d : Doc) (o : List Event) :
    execCells demoCells ⟨d, o⟩ = ⟨d, o ++ demoBodyEvents d⟩ := by
  simp [demoCells, execCells, execCell_eq, demoBodyEvents, List.append_assoc]

theorem demoRun_ok (nlp : String → Except String Doc) (s : String) (d : Doc)
    (h : nlp s = Except.ok d) :
    demoRun nlp s = (Event.invoke s :: demoBodyEvents d, Except.ok ()) := by
  simp [demoRun, h, execCells_demo_eq]

theorem demoBodyEvents_no_invoke (d : Doc) :
    ∀ ev ∈ demoBodyEvents d, ev.isInvoke = false := by
  intro ev hev
  cases ev with
  | invoke i => exfalso; simp [demoBodyEvents, cellEvents] at hev
  | print l => rfl
  | render st dd => rfl

theorem countInvokes_demoBodyEvents (d : Doc) :
    countInvokes (demoBodyEvents d) = 0 := by
  have h : (demoBodyEvents d).filter Event.isInvoke = [] :=
    List.filter_eq_nil_iff.mpr (fun ev hev => by
      simp [demoBodyEvents_no_invoke d ev hev])
  simp [countInvokes, h]

/-- The fixed input string of the notebook
(`sentence = "株式会社オープンAIは東京都渋谷区に本社を構えています。"`). -/
def sentence : String :=
  "株式会社オープンAIは東京都渋谷区に本社を構えています。"

/-- The annotated document of the recorded run (`doc = nlp(sentence)`),
transcribed from the output cells of `src/src/transformer_example.ipynb`:
the token-annotation loop's output gives each token's text, entity IOB tag,
entity type, fine-grained tag, coarse POS, dependency label and morphology,
and the POS-table output gives its lemma, shape, alphabetic flag and
stop-word flag. -/
def doc : Doc :=
  { text := sentence
  , tokens :=
    [ { text := "株式", lemma_ := "株式", pos_ := "NOUN", tag_ := "名詞-普通名詞-一般",
        dep_ := "compound", morph := "Reading=カブシキ", shape_ := "xx",
        is_alpha := true, is_stop := false, ent_iob_ := "B", ent_type_ := "ORG" }
    , { text := "会社", lemma_ := "会社", pos_ := "NOUN", tag_ := "名詞-普通名詞-一般",
        dep_ := "compound", morph := "Reading=ガイシャ", shape_ := "xx",
        is_alpha := true, is_stop := false, ent_iob_ := "I", ent_type_ := "ORG" }
    , { text := "オープン", lemma_ := "オープン", pos_ := "NOUN", tag_ := "名詞-普通名詞-サ変形状詞可能",
        dep_ := "compound", morph := "Reading=オープン", shape_ := "xxxx",
        is_alpha := true, is_stop := false, ent_iob_ := "I", ent_type_ := "ORG" }
    , { text := "AI", lemma_ := "AI", pos_ := "NOUN", tag_ := "名詞-普通名詞-一般",
        dep_ := "nsubj", morph := "Reading=エーアイ", shape_ := "XX",
        is_alpha := true, is_stop := false, ent_iob_ := "I", ent_type_ := "ORG" }
    , { text := "は", lemma_ := "は", pos_ := "ADP", tag_ := "助詞-係助詞",
        dep_ := "case", morph := "Reading=ハ", shape_ := "x",
        is_alpha := true, is_stop := true, ent_iob_ := "O", ent_type_ := "" }
    , { text := "東京", lemma_ := "東京", pos_ := "PROPN", tag_ := "名詞-固有名詞-地名-一般",
        dep_ := "compound", morph := "Reading=トウキョウ", shape_ := "xx",
        is_alpha := true, is_stop := false, ent_iob_ := "B", ent_type_ := "GPE" }
    , { text := "都", lemma_ := "都", pos_ := "NOUN", tag_ := "名詞-普通名詞-一般",
        dep_ := "nmod", morph := "Reading=ト", shape_ := "x",
        is_alpha := true, is_stop := false, ent_iob_ := "I", ent_type_ := "GPE" }
    , { text := "渋谷", lemma_ := "渋谷", pos_ := "PROPN", tag_ := "名詞-固有名詞-地名-一般",
        dep_ := "compound", morph := "Reading=シブヤ", shape_ := "xx",
        is_alpha := true, is_stop := false, ent_iob_ := "I", ent_type_ := "GPE" }
    , { text := "区", lemma_ := "区", pos_ := "NOUN", tag_ := "接尾辞-名詞的-一般",
        dep_ := "obl", morph := "Reading=ク", shape_ := "x",
        is_alpha := true, is_stop := false, ent_iob_ := "I", ent_type_ := "GPE" }
    , { text := "に", lemma_ := "に", pos_ := "ADP", tag_ := "助詞-格助詞",
        dep_ := "case", morph := "Reading=ニ", shape_ := "x",
        is_alpha := true, is_stop := true, ent_iob_ := "O", ent_type_ := "" }
    , { text := "本社", lemma_ := "本社", pos_ := "NOUN", tag_ := "名詞-普通名詞-一般",
        dep_ := "obj", morph := "Reading=ホンシャ", shape_ := "xx",
        is_alpha := true, is_stop := false, ent_iob_ := "O", ent_type_ := "" }
    , { text := "を", lemma_ := "を", pos_ := "ADP", tag_ := "助詞-格助詞",
        dep_ := "case", morph := "Reading=ヲ", shape_ := "x",
        is_alpha := true, is_stop := true, ent_iob_ := "O", ent_type_ := "" }
    , { text := "構え", lemma_ := "構える", pos_ := "VERB", tag_ := "動詞-一般",
        dep_ := "ROOT", morph := "Inflection=下一段-ア行;連用形-一般|Reading=カマエ", shape_ := "xx",
        is_alpha := true, is_stop := false, ent_iob_ := "O", ent_type_ := "" }
    , { text := "て", lemma_ := "て", pos_ := "SCONJ", tag_ := "助詞-接続助詞",
        dep_ := "mark", morph := "Reading=テ", shape_ := "x",
        is_alpha := true, is_stop := true, ent_iob_ := "O", ent_type_ := "" }
    , { text := "い", lemma_ := "いる", pos_ := "VERB", tag_ := "動詞-非自立可能",
        dep_ := "fixed", morph := "Inflection=上一段-ア行;連用形-一般|Reading=イ", shape_ := "x",
        is_alpha := true, is_stop := true, ent_iob_ := "O", ent_type_ := "" }
    , { text := "ます", lemma_ := "ます", pos_ := "AUX", tag_ := "助動詞",
        dep_ := "aux", morph := "Inflection=助動詞-マス;終止形-一般|Reading=マス", shape_ := "xx",
        is_alpha := true, is_stop := true, ent_iob_ := "O", ent_type_ := "" }
    , { text := "。", lemma_ := "。", pos_ := "PUNCT", tag_ := "補助記号-句点",
        dep_ := "punct", morph := "Reading=。", shape_ := "。",
        is_alpha := false, is_stop := false, ent_iob_ := "O", ent_type_ := "" }
    ]
  , ents :=
    [ { text := "株式会社オープンAI", start_char := 0, end_char := 10, label_ := "ORG" }
    , { text := "東京都渋谷区", start_char := 11, end_char := 17, label_ := "GPE" }
    ]
  }

/-- Character offset at which token `i` begins, obtained by summing the
character lengths of the preceding token texts (spaCy tokenization is
non-destructive, so token texts concatenate to the document text). -/
def tokenStart (d : Doc) (i : Nat) : Nat :=
  ((d.tokens.take i).map (fun t => t.text.length)).sum

/-- Python-style character slice `s[a:b]`. -/
def sliceChars (s : String) (a b : Nat) : String :=
  String.mk ((s.data.take b).drop a)

/-- Modelled from the spec: offset consistency, an invariant the spec ascribes
to the external pipeline (not enforced by repository code): each entity span's
covered text equals the character slice of the document text from its start
offset (inclusive) to its end offset (exclusive). -/
def entOffsetsConsistent (d : Doc) : Bool :=
  d.ents.all (fun e => e.text == sliceChars d.text e.start_char e.end_char)

/-- Whether entity span `e` matches a contiguous token run of `d`: some token
interval `[i, j)` starts at `e.start_char`, ends at `e.end_char`, its first
token carries entity IOB tag `B` and the rest tag `I`, all with the span's
entity type. -/
def entRunOk (d : Doc) (e : Span) : Bool :=
  (List.range (d.tokens.length + 1)).any (fun i =>
    (List.range (d.tokens.length + 1)).any (fun j =>
      decide (i < j) && decide (j ≤ d.tokens.length) &&
      (tokenStart d i == e.start_char) && (tokenStart d j == e.end_char) &&
      (List.range j).all (fun k =>
        decide (k < i) ||
        (match d.tokens[k]? with
         | some t => t.ent_type_ == e.label_ && t.ent_iob_ == (if k == i then "B" else "I")
         | none => false))))

/-- Whether token `k` of `d` lies inside some entity span (by character
offsets). -/
def tokenCovered (d : Doc) (k : Nat) : Bool :=
  d.ents.any (fun e =>
    decide (e.start_char ≤ tokenStart d k) && decide (tokenStart d (k + 1) ≤ e.end_char))

/-- Modelled from the spec: entity spans derive from contiguous token entity
tags, an invariant the spec ascribes to the external pipeline (not enforced by
repository code): every entity span matches a contiguous `B`/`I`-tagged token
run of its type, and every token outside all entity spans carries tag `O` and
an empty entity type. -/
def entsFromIOB (d : Doc) : Bool :=
  d.ents.all (entRunOk d) &&
  (List.range d.tokens.length).all (fun k =>
    tokenCovered d k ||
    (match d.tokens[k]? with
     | some t => t.ent_iob_ == "O" && t.ent_type_ == ""
     | none => false))


theorem renderRequests_append (a b : List Event) :
    renderRequests (a ++ b) = renderRequests a ++ renderRequests b := by
  simp [renderRequests, List.filterMap_append]

theorem renderRequests_nil : renderRequests [] = [] := rfl

theorem renderRequests_print_cons (str : String) (l : List Event) :
    renderRequests (Event.print str :: l) = renderRequests l := rfl

theorem renderRequests_invoke_cons (str : String) (l : List Event) :
    renderRequests (Event.invoke str :: l) = renderRequests l := rfl

theorem renderRequests_render_cons (st : String) (d : Doc) (l : List Event) :
    renderRequests (Event.render st d :: l) = (st, d) :: renderRequests l := rfl

theorem renderRequests_print_map {α : Type} (f : α → String) (l : List α) :
    renderRequests (l.map (fun x => Event.print (f x))) = [] := by
  induction l with
  | nil => rfl
  | cons x xs ih => simpa [renderRequests_print_cons] using ih

/-- C1: run on any document state, the entity-display loop
(`for ent in doc.ents: print(ent.text, ent.start_char, ent.end_char, ent.label_)`)
appends to the trace exactly one printed line per entity span, in the
document's entity order — each line the space-separated join of that span's
covered text, start character offset, end character offset and label — and
appends nothing else; the entity-span sequence is a finite list and the loop
output has exactly its length. -/
theorem ents_loop_prints_each_span (d : Doc) (o : List Event) :
    (execCell Cell.entsLoop ⟨d, o⟩).output =
      o ++ d.ents.map (fun e => Event.print
        (String.intercalate " " [e.text, toString e.start_char, toString e.end_char, e.label_])) ∧
    ((execCell Cell.entsLoop ⟨d, o⟩).output).length = o.length + d.ents.length := by
  refine ⟨?_, ?_⟩
  · simp [execCell_eq, cellEvents, entLine, pyPrint]
  · simp [execCell_eq, cellEvents]

/-- C2: in every run of the demo, the external annotation capability is
invoked exactly once, as the first event, on the single input string; and
when it returns a document, the whole remaining trace is exactly the display
events derived from that one document. -/
theorem pipeline_invoked_exactly_once (nlp : String → Except String Doc) (s : String) :
    countInvokes (demoRun nlp s).1 = 1 ∧
    (demoRun nlp s).1.head? = some (Event.invoke s) ∧
    (∀ d : Doc, nlp s = Except.ok d →
      (demoRun nlp s).1 = Event.invoke s :: demoBodyEvents d) := by
  refine ⟨?_, ?_, ?_⟩
  · cases h : nlp s with
    | error e => simp [demoRun, h, countInvokes, Event.isInvoke]
    | ok d =>
      rw [demoRun_ok nlp s d h]
      have hb := countInvokes_demoBodyEvents d
      simp only [countInvokes, List.filter_cons] at hb ⊢
      simp [Event.isInvoke, List.length_eq_zero.mp hb]
  · cases h : nlp s with
    | error e => simp [demoRun, h]
    | ok d => rw [demoRun_ok nlp s d h]; rfl
  · intro d h
    rw [demoRun_ok nlp s d h]

/-- C2 witness: the demo run on the notebook's input, against a capability
returning the recorded document, invokes the capability exactly once and
derives its whole trace from that one document. -/
theorem pipeline_invoked_exactly_once_witness :
    countInvokes (demoRun (fun _ => Except.ok doc) sentence).1 = 1 ∧
    (demoRun (fun _ => Except.ok doc) sentence).1.head? = some (Event.invoke sentence) ∧
    (demoRun (fun _ => Except.ok doc) sentence).1 =
      Event.invoke sentence :: demoBodyEvents doc := by
  have h := pipeline_invoked_exactly_once (fun _ => Except.ok doc) sentence
  exact ⟨h.1, h.2.1, h.2.2 doc rfl⟩

/-- C3: each of the three token-display loops (the token-annotation loop, the
tokenization loop, the POS-table loop) and the per-token entity-tag loop is a
terminating single pass over the document's finite token list, appending
exactly one printed line per token, in the document's token order (the POS
table cell additionally prints its header first, before the loop). -/
theorem token_loops_one_line_per_token (d : Doc) (o : List Event) :
    (execCell Cell.tokenAnnotationLoop ⟨d, o⟩).output =
      o ++ d.tokens.map (fun t => Event.print (tokenAnnotationLine t)) ∧
    (execCell Cell.tokenTextLoop ⟨d, o⟩).output =
      o ++ d.tokens.map (fun t => Event.print (tokenTextLine t)) ∧
    (execCell Cell.posTable ⟨d, o⟩).output =
      o ++ Event.print posHeaderLine :: d.tokens.map (fun t => Event.print (posTableLine t)) ∧
    (execCell Cell.tokenIobLoop ⟨d, o⟩).output =
      o ++ d.tokens.map (fun t => Event.print (tokenIobLine t)) := by
  refine ⟨?_, ?_, ?_, ?_⟩ <;> simp [execCell_eq, cellEvents]

/-- C4: whenever the capability returns a document, the demo's trace contains
exactly two rendering requests, the first in style "dep" and the second in
style "ent", both on the same document returned by the single invocation. -/
theorem demo_renders_dep_then_ent (nlp : String → Except String Doc) (s : String) (d : Doc)
    (h : nlp s = Except.ok d) :
    renderRequests (demoRun nlp s).1 = [("dep", d), ("ent", d)] := by
  rw [demoRun_ok nlp s d h]
  simp only [demoBodyEvents, cellEvents, renderRequests_append, renderRequests_print_map,
    renderRequests_print_cons, renderRequests_invoke_cons, renderRequests_render_cons,
    renderRequests_nil, List.nil_append, List.append_nil, List.cons_append,
    List.singleton_append]

/-- C4 witness: on the notebook's input and the recorded document, the demo
requests exactly the "dep" and "ent" renderings, in that order, on that
document. -/
theorem demo_renders_dep_then_ent_witness :
    renderRequests (demoRun (fun _ => Except.ok doc) sentence).1 =
      [("dep", doc), ("ent", doc)] :=
  demo_renders_dep_then_ent (fun _ => Except.ok doc) sentence doc rfl

/-- C5: when the external annotation capability fails on the input, the demo
performs no handling: its trace is just the single invocation — no token line,
no entity line and no rendering request is emitted — and the run's outcome is
the capability's error, propagated unchanged. -/
theorem failure_propagates_unhandled (nlp : String → Except String Doc) (s e : String)
    (h : nlp s = Except.error e) :
    demoRun nlp s = ([Event.invoke s], Except.error e) := by
  simp [demoRun, h]

/-- C5 witness: against a capability failing with a missing-model error, the
demo on the notebook's input emits only the invocation and propagates the
error. -/
theorem failure_propagates_unhandled_witness :
    demoRun (fun _ => Except.error "missing model ja_core_news_trf") sentence =
      ([Event.invoke sentence], Except.error "missing model ja_core_news_trf") :=
  failure_propagates_unhandled (fun _ => Except.error "missing model ja_core_news_trf")
    sentence "missing model ja_core_news_trf" rfl

/-- C6: the document is read-only for the demo: no cell (any of the four
iteration loops or the two rendering requests) changes the document component
of the state, and a run of any cell sequence — in particular the whole demo
body — leaves the document equal to the one the first pass observed. -/
theorem doc_read_only :
    (∀ (c : Cell) (s : DemoState), (execCell c s).doc = s.doc) ∧
    (∀ (cs : List Cell) (s : DemoState), (execCells cs s).doc = s.doc) := by
  have hc : ∀ (c : Cell) (s : DemoState), (execCell c s).doc = s.doc := by
    intro c s
    rw [execCell_eq]
  refine ⟨hc, ?_⟩
  intro cs
  induction cs with
  | nil => intro s; rfl
  | cons c cs ih =>
      intro s
      show (execCells cs (execCell c s)).doc = s.doc
      rw [ih (execCell c s), hc c s]

/-- C7: offset consistency at the display interface of the recorded run: the
entity-display loop prints one line per entity span of the recorded document,
and each such span's covered text equals the character slice of the input
string from its start offset (inclusive) to its end offset (exclusive). -/
theorem printed_entity_text_matches_offsets :
    entOffsetsConsistent doc = true ∧
    (execCell Cell.entsLoop ⟨doc, []⟩).output =
      doc.ents.map (fun e => Event.print (entLine e)) := by
  refine ⟨by decide, ?_⟩
  simp [execCell_eq, cellEvents]

/-- C8: on the recorded document, every entity span matches a contiguous run
of tokens starting at its start offset and ending at its end offset whose
first token carries entity IOB tag `B` and whose remaining tokens carry tag
`I`, all with the span's entity type, while every token belonging to no
entity span carries tag `O` and an empty entity type. -/
theorem entity_spans_from_contiguous_iob :
    entsFromIOB doc = true := by
  decide

/-- C9: tokenization is non-destructive at the demo's interface: on the
recorded document, concatenating the text of every token in order yields
exactly the original input string, which is also the document's text. -/
theorem tokenization_non_destructive :
    String.join (doc.tokens.map Token.text) = sentence ∧ doc.text = sentence := by
  exact ⟨by decide, rfl⟩

/-- C10: the demo is deterministic: two runs on the same input string against
capabilities that answer that input identically produce identical traces
(identical printed lines in identical order and identical rendering requests)
and identical outcomes. -/
theorem demo_deterministic (nlpa nlpb : String → Except String Doc) (s : String)
    (h : nlpa s = nlpb s) :
    demoRun nlpa s = demoRun nlpb s := by
  simp [demoRun, h]

/-- C10 witness: two syntactically different capabilities that agree on the
notebook's input give the demo identical traces and outcomes there. -/
theorem demo_deterministic_witness :
    demoRun (fun _ => Except.ok doc) sentence =
      demoRun (fun q => if q = sentence then Except.ok doc
                        else Except.error "missing model ja_core_news_trf") sentence :=
  demo_deterministic (fun _ => Except.ok doc)
    (fun q => if q = sentence then Except.ok doc
              else Except.error "missing model ja_core_news_trf") sentence (by simp)
